import Mathlib

set_option autoImplicit false

/-!
Shallow embedding of the scheduling / playback-exclusivity / ducking core of
`timelads.py` (class `TimelyAdsApp`), together with proofs of the behavioural
properties of that core.  Host audio volumes are modelled as rationals, the
asynchronous `after`-driven ramps are modelled sequentially (each call runs its
scheduled stages to completion before the next call is considered), and every
external call that may raise is modelled by an explicit outcome parameter.
-/

/-- A host audio session as enumerated by `_get_all_audio_sessions`
(lines 557-573): the process id when available, the python object identity
used as a fallback key, whether a volume interface could be obtained
(`vol_iface is not None`), and the result of `GetMasterVolume` (`none`
models the call raising, in which case the code substitutes `1.0`). -/
structure Session where
  pid : Option Nat
  objId : Nat
  hasIface : Bool
  getVol : Option ℚ
deriving Repr, DecidableEq

/-- Session key used by the ducking bookkeeping: `pid if pid is not None
else id(s)` (lines 590 and 627). -/
def sessKey (s : Session) : Nat := s.pid.getD s.objId

/-- Eligibility filter of `duck_all_sessions` (lines 585-589): a session is
skipped when its volume interface is unavailable, or when its pid lies in
`exclude_pids` or equals `os.getpid()`. -/
def sessEligible (excl : List Nat) (ownPid : Nat) (s : Session) : Bool :=
  s.hasIface &&
    (match s.pid with
     | some p => !(excl.contains p || p == ownPid)
     | none => true)

/-- Lookup in the `_saved_sessions` dict, modelled as an association list
with unique keys (new keys are only ever appended when absent). -/
def lookupSaved (k : Nat) : List (Nat × ℚ) → Option ℚ
  | [] => none
  | p :: rest => if p.1 = k then some p.2 else lookupSaved k rest

/-- Baseline-capture loop of `duck_all_sessions` (lines 584-597): every
eligible session is collected into `to_duck`; its current volume (default
`1.0` when `GetMasterVolume` raises) is stored as its baseline only when its
key is not already tracked. -/
def captureSessions (excl : List Nat) (ownPid : Nat) :
    List (Nat × ℚ) → List Session → List (Nat × ℚ) × List Nat
  | saved, [] => (saved, [])
  | saved, s :: rest =>
    if sessEligible excl ownPid s = true then
      let key := sessKey s
      let orig := s.getVol.getD 1
      let saved2 := if lookupSaved key saved = none then saved ++ [(key, orig)] else saved
      let r := captureSessions excl ownPid saved2 rest
      (r.1, key :: r.2)
    else
      captureSessions excl ownPid saved rest

/-- State shared by the ducking manager: the `_saved_sessions` baseline map
and the `_duck_active` episode flag (lines 108-109). -/
structure DuckState where
  savedSessions : List (Nat × ℚ)
  duckActive : Bool
deriving Repr, DecidableEq

/-- `duck_all_sessions` (lines 575-615), sequential model: when pycaw is
missing the call returns `False` and changes nothing; otherwise the baseline
map is reset if no episode is active, baselines are captured for eligible
sessions not yet tracked, and — whether or not any session was duckable —
the episode ends marked active (line 599 immediately, or line 613 when the
scheduled ramp finishes; the model runs the ramp to completion).  Returns
the new state and the python return value. -/
def duck_all_sessions (pycawOk : Bool) (excl : List Nat) (ownPid : Nat)
    (st : DuckState) (snap : List Session) : DuckState × Bool :=
  if !pycawOk then (st, false)
  else
    let saved0 := if st.duckActive then st.savedSessions else []
    let r := captureSessions excl ownPid saved0 snap
    ({ savedSessions := r.1, duckActive := true }, true)

/-- A sequence of `duck_all_sessions` calls without an intervening restore,
one host-session snapshot per call. -/
def duckSeq (pycawOk : Bool) (excl : List Nat) (ownPid : Nat)
    (st : DuckState) : List (List Session) → DuckState
  | [] => st
  | snap :: rest =>
      duckSeq pycawOk excl ownPid (duck_all_sessions pycawOk excl ownPid st snap).1 rest

/-- Live volume of the session keyed `k` at its first eligible appearance in
a snapshot (the reference value the captured baseline is compared against). -/
def firstEligibleVol (excl : List Nat) (ownPid : Nat) (k : Nat) :
    List Session → Option ℚ
  | [] => none
  | s :: rest =>
    if sessEligible excl ownPid s = true ∧ sessKey s = k then some (s.getVol.getD 1)
    else firstEligibleVol excl ownPid k rest

/-- Volume written for session `key` at stage `i` of the duck ramp
(lines 601-609): `new = orig + (target - orig) * (i / steps)` clamped to
`[0, 1]`, where `orig = self._saved_sessions.get(key, 1.0)`. -/
def duckStepVolume (saved : List (Nat × ℚ)) (target : ℚ) (steps : Nat)
    (i : Nat) (key : Nat) : ℚ :=
  let orig := (lookupSaved key saved).getD 1
  let t : ℚ := (i : ℚ) / (steps : ℚ)
  max 0 (min 1 (orig + (target - orig) * t))

/-- Outcome of `restore_all_sessions`: the resulting shared state, the python
return value, and the exact final-stage volume writes (key, value) issued at
lines 647-653. -/
structure RestoreResult where
  state : DuckState
  returned : Bool
  finalWrites : List (Nat × ℚ)
deriving Repr, DecidableEq

/-- `restore_all_sessions` (lines 617-657), sequential model: with pycaw
missing it returns `False`; with no tracked session it returns `True` and
changes nothing (lines 620-621); otherwise the scheduled ramp runs to
completion and on its final stage every tracked session whose volume
interface is still present (`vol_map`) is forced to exactly its recorded
baseline, after which the map is cleared and the episode marked inactive
(lines 646-655).  `volMap` holds the live sessions by key. -/
def restore_all_sessions (pycawOk : Bool) (st : DuckState)
    (volMap : List (Nat × ℚ)) : RestoreResult :=
  if !pycawOk then ⟨st, false, []⟩
  else if st.savedSessions.isEmpty then ⟨st, true, []⟩
  else
    let writes := st.savedSessions.filter (fun p => (lookupSaved p.1 volMap).isSome)
    ⟨{ savedSessions := [], duckActive := false }, true, writes⟩

-- Helper lemmas about `lookupSaved` and the capture loop (shared by the
-- episode-invariant proofs below).

lemma lookupSaved_append (k : Nat) (l1 l2 : List (Nat × ℚ)) :
    lookupSaved k (l1 ++ l2) =
      (match lookupSaved k l1 with
       | some b => some b
       | none => lookupSaved k l2) := by
  induction l1 with
  | nil => simp [lookupSaved]
  | cons p rest ih =>
      by_cases h : p.1 = k
      · simp [lookupSaved, h]
      · simp [lookupSaved, h, ih]

lemma lookupSaved_append_some {k : Nat} {l1 : List (Nat × ℚ)} {b : ℚ}
    (l2 : List (Nat × ℚ)) (h : lookupSaved k l1 = some b) :
    lookupSaved k (l1 ++ l2) = some b := by
  rw [lookupSaved_append, h]

lemma lookupSaved_append_single_none {k key : Nat} {l : List (Nat × ℚ)} {v : ℚ}
    (h : lookupSaved k l = none) (hk : key ≠ k) :
    lookupSaved k (l ++ [(key, v)]) = none := by
  rw [lookupSaved_append, h]
  simp [lookupSaved, hk]

lemma lookupSaved_append_single_self {k : Nat} {l : List (Nat × ℚ)} {v : ℚ}
    (h : lookupSaved k l = none) :
    lookupSaved k (l ++ [(k, v)]) = some v := by
  rw [lookupSaved_append, h]
  simp [lookupSaved]

lemma captureSessions_preserves (excl : List Nat) (ownPid : Nat)
    (snap : List Session) :
    ∀ (saved : List (Nat × ℚ)) (k : Nat) (b : ℚ),
      lookupSaved k saved = some b →
      lookupSaved k (captureSessions excl ownPid saved snap).1 = some b := by
  induction snap with
  | nil => intro saved k b h; simpa [captureSessions] using h
  | cons s rest ih =>
      intro saved k b h
      by_cases he : sessEligible excl ownPid s = true
      · simp only [captureSessions, he, if_pos]
        by_cases hn : lookupSaved (sessKey s) saved = none
        · simp only [hn, if_pos]
          exact ih _ k b (lookupSaved_append_some _ h)
        · simp only [hn, if_neg, ite_false]
          exact ih _ k b h
      · simpa [captureSessions, he] using ih saved k b h

lemma captureSessions_captures (excl : List Nat) (ownPid : Nat)
    (snap : List Session) :
    ∀ (saved : List (Nat × ℚ)) (k : Nat) (v : ℚ),
      lookupSaved k saved = none →
      firstEligibleVol excl ownPid k snap = some v →
      lookupSaved k (captureSessions excl ownPid saved snap).1 = some v := by
  induction snap with
  | nil => intro saved k v _ hf; simp [firstEligibleVol] at hf
  | cons s rest ih =>
      intro saved k v hnone hf
      by_cases he : sessEligible excl ownPid s = true
      · by_cases hk : sessKey s = k
        · have hv : s.getVol.getD 1 = v := by
            have : firstEligibleVol excl ownPid k (s :: rest) = some (s.getVol.getD 1) := by
              simp [firstEligibleVol, he, hk]
            rw [this] at hf
            exact Option.some_inj.mp hf
          have hkey : lookupSaved (sessKey s) saved = none := by rw [hk]; exact hnone
          simp only [captureSessions, he, if_pos, hkey]
          apply captureSessions_preserves
          rw [hk, hv]
          exact lookupSaved_append_single_self hnone
        · have hf2 : firstEligibleVol excl ownPid k rest = some v := by
            simpa [firstEligibleVol, hk] using hf
          simp only [captureSessions, he, if_pos]
          by_cases hn : lookupSaved (sessKey s) saved = none
          · simp only [hn, if_pos]
            exact ih _ k v (lookupSaved_append_single_none hnone hk) hf2
          · simp only [hn, if_neg, ite_false]
            exact ih _ k v hnone hf2
      · have hf2 : firstEligibleVol excl ownPid k rest = some v := by
          simpa [firstEligibleVol, he] using hf
        simpa [captureSessions, he] using ih saved k v hnone hf2

lemma duck_preserves (excl : List Nat) (ownPid : Nat) (st : DuckState)
    (snap : List Session) (k : Nat) (b : ℚ)
    (hact : st.duckActive = true)
    (h : lookupSaved k st.savedSessions = some b) :
    lookupSaved k ((duck_all_sessions true excl ownPid st snap).1).savedSessions
        = some b ∧
      ((duck_all_sessions true excl ownPid st snap).1).duckActive = true := by
  simp only [duck_all_sessions, Bool.not_true, Bool.false_eq_true, if_false, hact,
    if_pos]
  exact ⟨captureSessions_preserves excl ownPid snap _ k b h, trivial⟩

lemma duckSeq_preserves (excl : List Nat) (ownPid : Nat)
    (snaps : List (List Session)) :
    ∀ (st : DuckState) (k : Nat) (b : ℚ),
      st.duckActive = true →
      lookupSaved k st.savedSessions = some b →
      lookupSaved k (duckSeq true excl ownPid st snaps).savedSessions = some b := by
  induction snaps with
  | nil => intro st k b _ h; simpa [duckSeq] using h
  | cons snap rest ih =>
      intro st k b hact h
      have h2 := duck_preserves excl ownPid st snap k b hact h
      simpa [duckSeq] using ih _ k b h2.2 h2.1

/-- Result reported by a playback request: started, rejected because another
playback is active, or rejected because the media file is missing. -/
inductive PlayResult where
  | Started
  | PlaybackBusy
  | MediaNotFound
deriving Repr, DecidableEq

/-- Shared playback state: the `_is_playing` single-flight flag (line 105). -/
structure PlaybackState where
  isPlaying : Bool
deriving Repr, DecidableEq

/-- `play_media_async` (lines 532-538): when `_is_playing` is set the request
is rejected immediately (an info dialog is shown, nothing is queued) and no
worker thread is started; otherwise a worker thread is spawned with the given
repeat count.  Returns the result, the shared state as left by the call
itself, and the repeat count handed to a started worker (`none` when no
worker was started). -/
def play_media_async (st : PlaybackState) (repeats : Int) :
    PlayResult × PlaybackState × Option Int :=
  if st.isPlaying then (PlayResult.PlaybackBusy, st, none)
  else (PlayResult.Started, st, some repeats)

/-- Play loop of `_playback_worker` (lines 545-548): `repeats` sequential
play-to-completion iterations; `playFails i = true` models an exception
raised inside iteration `i`.  Returns the number of completed plays, as an
error value when an iteration raised. -/
def playLoop (playFails : Nat → Bool) : Nat → Nat → Except Nat Nat
  | 0, done => Except.ok done
  | Nat.succ k, done =>
      if playFails done then Except.error done
      else playLoop playFails k (done + 1)

/-- Body of the `try` block of `_playback_worker` (lines 543-548):
`mixer.music.load` (raising when `loadOk = false`) followed by the play
loop. -/
def workerBody (repeats : Nat) (loadOk : Bool) (playFails : Nat → Bool) :
    Except Nat Nat :=
  if !loadOk then Except.error 0
  else playLoop playFails repeats 0

/-- Observable outcome of one `_playback_worker` run: completed plays,
whether the body raised, the final `_is_playing` value, and whether the
deferred `restore_all_sessions` call was scheduled. -/
structure WorkerResult where
  playsCompleted : Nat
  bodyFailed : Bool
  isPlayingFinal : Bool
  restoreTriggered : Bool
deriving Repr, DecidableEq

/-- `_playback_worker` (lines 540-554): sets `_is_playing`, runs the body
under `try`/`except`, and in the `finally` block clears `_is_playing` and
schedules `restore_all_sessions` — the `finally` clause runs on every path,
successful or raising. -/
def playback_worker (repeats : Nat) (loadOk : Bool) (playFails : Nat → Bool) :
    WorkerResult :=
  match workerBody repeats loadOk playFails with
  | Except.ok n => ⟨n, false, false, true⟩
  | Except.error n => ⟨n, true, false, true⟩

/-- Observable outcome of one playback request through the validated entry
point: the reported result, whether ducking was requested, and the repeat
count handed to a started worker. -/
structure PlayCallResult where
  result : PlayResult
  duckCalled : Bool
  workerRepeats : Option Int
deriving Repr, DecidableEq

/-- Validated playback request path: `_play_selected_media` (lines 507-525)
composed with `play_media_async`.  A missing file fails before any ducking
or worker start (lines 514-516); otherwise the repeat count is clamped to
`[1, 50]` (line 521), ducking of all other sessions is requested (line 524)
and the request is handed to `play_media_async` (line 525). -/
def play_selected_media (pathExists : Bool) (st : PlaybackState)
    (repeats : Int) : PlayCallResult :=
  if !pathExists then ⟨PlayResult.MediaNotFound, false, none⟩
  else
    let r := max 1 (min 50 repeats)
    let p := play_media_async st r
    ⟨p.1, true, p.2.2⟩

/-- A media item as stored in a playlist entry: `path`, `times` (HH:MM
strings) and the optional `repeats` field read via `m.get("repeats", 1)`. -/
structure MediaItem where
  path : String
  times : List String
  repeats : Option Int
deriving Repr, DecidableEq

/-- A playlist as stored in `self.playlists`: media items, the optional
playlist-level firing `time`, the playlist-level `repeats` field, and the
`active` flag read via `pl.get("active", True)`. -/
structure Playlist where
  files : List MediaItem
  time : Option String
  repeats : Int
  active : Bool
deriving Repr, DecidableEq

/-- `_play_playlist` (lines 951-954): requests playback of every item of the
playlist with `m.get("repeats", 1)` — the fallback repeat count is the
constant `1`. -/
def play_playlist (pl : Playlist) : List (String × Int) :=
  pl.files.map (fun m => (m.path, m.repeats.getD 1))

/-- Item-level firing inside `_schedule_tick` (lines 945-948): one playback
request per entry of `m.get("times", [])` equal to `now`. -/
def itemTriggers (now : String) (m : MediaItem) : List (String × Int) :=
  (m.times.filter (fun t => t == now)).map (fun _ => (m.path, m.repeats.getD 1))

/-- Contribution of one playlist to a scheduler tick (lines 941-948):
inactive playlists are skipped entirely; an active playlist whose `time`
equals `now` fires all of its items via `_play_playlist`; independently,
every item fires once per entry of its own `times` equal to `now`. -/
def tickPlaylist (now : String) (pl : Playlist) : List (String × Int) :=
  if !pl.active then []
  else
    (if pl.time == some now then play_playlist pl else []) ++
      pl.files.flatMap (itemTriggers now)

/-- `_schedule_tick` (lines 939-949): the playback requests
`(path, repeats)` issued over all playlists for the tick at `now`. -/
def schedule_tick (now : String) (pls : List Playlist) : List (String × Int) :=
  pls.flatMap (tickPlaylist now)

/-- Per-block audio callback of `_start_mic` (lines 682-692): every input
sample is multiplied by the current `_mic_gain`; when the scaled data is a
single-channel block it is written to both output channels; any exception
while processing the block zero-fills the two-channel output instead of
propagating.  `failing = true` models an exception inside the `try` block. -/
def mic_callback (gain : ℚ) (failing : Bool) (indata : List (List ℚ)) :
    List (List ℚ) :=
  if failing then indata.map (fun _ => [0, 0])
  else
    let data := indata.map (fun fr => fr.map (fun x => x * gain))
    if data.all (fun fr => fr.length == 1) then
      data.map (fun fr => [fr.headD 0, fr.headD 0])
    else data

/-- `_on_mic_vol_change` (lines 725-730): the slider percentage is turned
into the gain scalar `max 0 (v / 100)`; a read or parse failure (`none`)
resets the gain to `1`. -/
def on_mic_vol_change (v : Option ℚ) : ℚ :=
  match v with
  | some x => max 0 (x / 100)
  | none => 1

/-- Claim C1: within a single duck episode (a sequence of `duck_all_sessions`
calls with no intervening restore), a session baseline is captured at the
first eligible appearance of the session with its live volume of that
moment; a later duck call of the episode never overwrites an
already-captured baseline; and every duck call leaves the episode active, so
the two parts compose over the whole episode. -/
theorem duck_baseline_captured_once (excl : List Nat) (ownPid : Nat)
    (st : DuckState) (snap : List Session) (rest : List (List Session))
    (k : Nat) (v b : ℚ) :
    (lookupSaved k (if st.duckActive then st.savedSessions else []) = none →
      firstEligibleVol excl ownPid k snap = some v →
      lookupSaved k
          ((duck_all_sessions true excl ownPid st snap).1).savedSessions = some v) ∧
    (st.duckActive = true →
      lookupSaved k st.savedSessions = some b →
      lookupSaved k (duckSeq true excl ownPid st rest).savedSessions = some b) ∧
    ((duck_all_sessions true excl ownPid st snap).1).duckActive = true := by
  refine ⟨?_, ?_, ?_⟩
  · intro hnone hf
    simp only [duck_all_sessions, Bool.not_true, Bool.false_eq_true, if_false]
    exact captureSessions_captures excl ownPid snap _ k v hnone hf
  · intro hact h
    exact duckSeq_preserves excl ownPid rest st k b hact h
  · simp [duck_all_sessions]

theorem duck_baseline_captured_once_witness :
    lookupSaved 7 ((duck_all_sessions true [] 0 ⟨[], false⟩
        [⟨some 7, 11, true, some (1/2)⟩]).1).savedSessions = some (1/2) ∧
    lookupSaved 7 (duckSeq true [] 0 ⟨[(7, 1/2)], true⟩
        [[⟨some 7, 11, true, some (3/100)⟩]]).savedSessions = some (1/2) := by
  constructor
  · exact (duck_baseline_captured_once [] 0 ⟨[], false⟩
      [⟨some 7, 11, true, some (1/2)⟩] [] 7 (1/2) 0).1 (by simp [lookupSaved])
      (by simp [firstEligibleVol, sessEligible, sessKey])
  · exact (duck_baseline_captured_once [] 0 ⟨[(7, 1/2)], true⟩ []
      [[⟨some 7, 11, true, some (3/100)⟩]] 7 0 (1/2)).2.1 rfl
      (by simp [lookupSaved])

/-- Claim C2: when a playback is already in progress, `play_media_async`
rejects the request immediately with the busy failure, starts no worker and
leaves the shared state unchanged — the request is dropped, never queued. -/
theorem play_media_async_busy_rejected (st : PlaybackState) (r : Int)
    (h : st.isPlaying = true) :
    play_media_async st r = (PlayResult.PlaybackBusy, st, none) := by
  simp [play_media_async, h]

theorem play_media_async_busy_rejected_witness :
    play_media_async ⟨true⟩ 3 = (PlayResult.PlaybackBusy, ⟨true⟩, none) :=
  play_media_async_busy_rejected ⟨true⟩ 3 rfl

/-- Claim C3: every `_playback_worker` run — including every run in which
loading or playing raises — terminates with the playing guard cleared and
the restore of the ducked sessions scheduled; no failure path leaves the
guard held or the restore untriggered. -/
theorem playback_worker_always_cleanup (repeats : Nat) (loadOk : Bool)
    (playFails : Nat → Bool) :
    (playback_worker repeats loadOk playFails).isPlayingFinal = false ∧
    (playback_worker repeats loadOk playFails).restoreTriggered = true := by
  unfold playback_worker
  cases workerBody repeats loadOk playFails <;> simp

/-- Claim C4: a playback request for a missing file fails synchronously with
the missing-media error, requests no ducking and starts no worker. -/
theorem play_missing_file_not_found (st : PlaybackState) (r : Int) :
    play_selected_media false st r =
      ⟨PlayResult.MediaNotFound, false, none⟩ := rfl

lemma playLoop_no_fail (n : Nat) :
    ∀ d : Nat, playLoop (fun _ => false) n d = Except.ok (d + n) := by
  induction n with
  | zero => intro d; simp [playLoop]
  | succ k ih =>
      intro d
      simp only [playLoop, Bool.false_eq_true, if_false, ih (d + 1)]
      congr 1
      omega

lemma playback_worker_no_fail (n : Nat) :
    playback_worker n true (fun _ => false) = ⟨n, false, false, true⟩ := by
  simp [playback_worker, workerBody, playLoop_no_fail n 0]

/-- Claim C5, counterexample: with the file present, no playback in progress
and `repeats = 100` — a value inside the `[1, 100]` range the claim names,
so the claim demands `clamp(100, 1, 100) = 100` plays — the validated entry
point hands the worker `50` repeats and the worker completes `50` plays,
not `100`. -/
theorem play_repeats_clamp100_counterexample :
    (play_selected_media true ⟨false⟩ 100).workerRepeats = some 50 ∧
    (playback_worker 50 true (fun _ => false)).playsCompleted = 50 ∧
    (playback_worker 50 true (fun _ => false)).playsCompleted ≠
      (max 1 (min 100 (100 : Int))).toNat := by
  refine ⟨rfl, ?_, ?_⟩
  · rw [playback_worker_no_fail]
  · rw [playback_worker_no_fail]
    decide

/-- Claim C5 (amended): on an existing file with no playback in progress,
the validated entry point accepts the request and starts a worker with
`clamp(r, 1, 50)` repeats — a value outside `[1, 50]` is clamped into that
range, never rejected — and a worker given that count with no failures
completes exactly that many sequential full plays. -/
theorem play_repeats_clamp50 (st : PlaybackState) (r : Int)
    (h : st.isPlaying = false) :
    (play_selected_media true st r).result = PlayResult.Started ∧
    (play_selected_media true st r).workerRepeats = some (max 1 (min 50 r)) ∧
    (playback_worker (max 1 (min 50 r)).toNat true
        (fun _ => false)).playsCompleted = (max 1 (min 50 r)).toNat ∧
    1 ≤ max 1 (min 50 r) ∧ max 1 (min 50 r) ≤ 50 := by
  refine ⟨?_, ?_, ?_, le_max_left 1 (min 50 r), max_le (by norm_num) (min_le_left 50 r)⟩
  · simp [play_selected_media, play_media_async, h]
  · simp [play_selected_media, play_media_async, h]
  · rw [playback_worker_no_fail]

theorem play_repeats_clamp50_witness :
    (play_selected_media true ⟨false⟩ 200).result = PlayResult.Started ∧
    (play_selected_media true ⟨false⟩ 200).workerRepeats =
      some (max 1 (min 50 200)) ∧
    (playback_worker (max 1 (min 50 (200 : Int))).toNat true
        (fun _ => false)).playsCompleted = (max 1 (min 50 (200 : Int))).toNat ∧
    1 ≤ max 1 (min 50 (200 : Int)) ∧ max 1 (min 50 (200 : Int)) ≤ 50 :=
  play_repeats_clamp50 ⟨false⟩ 200 rfl

/-- Claim C6: when the episode has tracked sessions, the final restore stage
forces every tracked session whose volume interface is still present to
exactly its recorded baseline, clears the tracked-session map and marks the
episode inactive, returning success; when no session is tracked, restore is
a no-op returning success. -/
theorem restore_final_exact_and_clear (st : DuckState)
    (volMap : List (Nat × ℚ)) :
    (st.savedSessions ≠ [] →
      (restore_all_sessions true st volMap).state = ⟨[], false⟩ ∧
      (restore_all_sessions true st volMap).returned = true ∧
      ∀ k b, (k, b) ∈ st.savedSessions → (lookupSaved k volMap).isSome = true →
        (k, b) ∈ (restore_all_sessions true st volMap).finalWrites) ∧
    (st.savedSessions = [] →
      restore_all_sessions true st volMap = ⟨st, true, []⟩) := by
  constructor
  · intro hne
    have hK : st.savedSessions.isEmpty = false := by
      simpa [List.isEmpty_iff] using hne
    refine ⟨by simp [restore_all_sessions, hK], by simp [restore_all_sessions, hK], ?_⟩
    intro k b hmem hlook
    simp only [restore_all_sessions, Bool.not_true, Bool.false_eq_true, if_false, hK]
    exact List.mem_filter.mpr ⟨hmem, hlook⟩
  · intro he
    simp [restore_all_sessions, he]

theorem restore_final_exact_and_clear_witness :
    (restore_all_sessions true ⟨[(3, 7/10)], true⟩ [(3, 1/20)]).state = ⟨[], false⟩ ∧
    (restore_all_sessions true ⟨[(3, 7/10)], true⟩ [(3, 1/20)]).returned = true ∧
    (3, (7/10 : ℚ)) ∈
      (restore_all_sessions true ⟨[(3, 7/10)], true⟩ [(3, 1/20)]).finalWrites := by
  have h := (restore_final_exact_and_clear ⟨[(3, 7/10)], true⟩ [(3, 1/20)]).1
    (by simp)
  exact ⟨h.1, h.2.1, h.2.2 3 (7/10) (by simp) (by simp [lookupSaved])⟩

/-- Claim C7: at duck ramp stage `i` of `steps` (with `1 ≤ i ≤ steps`), a
tracked session with baseline `b` is written the volume
`b + (target - b) * (i / steps)` clamped to `[0, 1]`, and at the final stage
`i = steps` the written volume is exactly the clamped target. -/
theorem duck_ramp_step_formula (saved : List (Nat × ℚ)) (target b : ℚ)
    (steps i k : Nat) (hb : lookupSaved k saved = some b)
    (hs : 0 < steps) (_h1 : 1 ≤ i) (_h2 : i ≤ steps) :
    duckStepVolume saved target steps i k =
      max 0 (min 1 (b + (target - b) * ((i : ℚ) / (steps : ℚ)))) ∧
    duckStepVolume saved target steps steps k = max 0 (min 1 target) := by
  constructor
  · simp [duckStepVolume, hb]
  · have hz : (steps : ℚ) ≠ 0 := Nat.cast_ne_zero.mpr hs.ne'
    have ht : b + (target - b) * ((steps : ℚ) / (steps : ℚ)) = target := by
      rw [div_self hz]; ring
    simp [duckStepVolume, hb, ht]

theorem duck_ramp_step_formula_witness :
    duckStepVolume [(2, 1/2)] (6/100) 6 3 2 =
      max 0 (min 1 ((1/2 : ℚ) + ((6/100 : ℚ) - 1/2) * ((3 : ℚ) / (6 : ℚ)))) ∧
    duckStepVolume [(2, 1/2)] (6/100) 6 6 2 = max 0 (min 1 (6/100 : ℚ)) :=
  duck_ramp_step_formula [(2, 1/2)] (6/100) (1/2) 6 3 2
    (by simp [lookupSaved]) (by norm_num) (by norm_num) (by norm_num)

/-- Claim C8, counterexample: an active playlist with `time = "09:00"` and
playlist-level `repeats = 5` holding one item without a `repeats` field
fires at the `"09:00"` tick with fallback repeat count `1`; the claimed
fallback to the playlist-level `repeats = 5` never happens. -/
theorem schedule_tick_playlist_repeats_counterexample :
    schedule_tick "09:00" [⟨[⟨"a", [], none⟩], some "09:00", 5, true⟩]
        = [("a", 1)] ∧
    ("a", 5) ∉ schedule_tick "09:00" [⟨[⟨"a", [], none⟩], some "09:00", 5, true⟩] := by
  constructor
  · rfl
  · intro hmem
    rw [show schedule_tick "09:00" [⟨[⟨"a", [], none⟩], some "09:00", 5, true⟩]
          = [("a", 1)] from rfl] at hmem
    simp at hmem

/-- Claim C8 (amended): at a scheduler tick, inactive playlists trigger
nothing; every item of an active playlist whose `time` equals `now` triggers
a playback with the item-level `repeats`, falling back to the constant
default `1` when the item has none (the playlist-level `repeats` is not
consulted); and every item of every active playlist with an entry of its own
`times` equal to `now` triggers a playback with the same item-level repeat
count. -/
theorem schedule_tick_firing (now : String) (pls : List Playlist)
    (pl : Playlist) (m : MediaItem) :
    (pl.active = false → tickPlaylist now pl = []) ∧
    (pl ∈ pls → pl.active = true → pl.time = some now → m ∈ pl.files →
      (m.path, m.repeats.getD 1) ∈ schedule_tick now pls) ∧
    (pl ∈ pls → pl.active = true → m ∈ pl.files → now ∈ m.times →
      (m.path, m.repeats.getD 1) ∈ schedule_tick now pls) := by
  refine ⟨?_, ?_, ?_⟩
  · intro h
    simp [tickPlaylist, h]
  · intro hpl hact ht hm
    refine List.mem_flatMap.mpr ⟨pl, hpl, ?_⟩
    have hcond : (pl.time == some now) = true := by rw [ht]; simp
    simp only [tickPlaylist, hact, Bool.not_true, Bool.false_eq_true, if_false,
      ite_false, hcond, eq_self_iff_true, if_true, List.mem_append]
    exact Or.inl (List.mem_map.mpr ⟨m, hm, rfl⟩)
  · intro hpl hact hm htime
    refine List.mem_flatMap.mpr ⟨pl, hpl, ?_⟩
    simp only [tickPlaylist, hact, Bool.not_true, Bool.false_eq_true, if_false,
      ite_false, List.mem_append]
    refine Or.inr (List.mem_flatMap.mpr ⟨m, hm, ?_⟩)
    exact List.mem_map.mpr
      ⟨now, List.mem_filter.mpr ⟨htime, by simp⟩, rfl⟩

theorem schedule_tick_firing_witness :
    ("a", 2) ∈ schedule_tick "09:00"
      [⟨[⟨"a", ["11:30"], some 2⟩], some "09:00", 5, true⟩] :=
  (schedule_tick_firing "09:00"
      [⟨[⟨"a", ["11:30"], some 2⟩], some "09:00", 5, true⟩]
      ⟨[⟨"a", ["11:30"], some 2⟩], some "09:00", 5, true⟩
      ⟨"a", ["11:30"], some 2⟩).2.1
    (by simp) rfl rfl (by simp)

lemma mic_callback_mono (gain : ℚ) (xs : List ℚ) :
    mic_callback gain false (xs.map (fun x => [x])) =
      xs.map (fun x => [x * gain, x * gain]) := by
  have hall : ((xs.map (fun x => [x])).map
      (fun fr => fr.map (fun x => x * gain))).all (fun fr => fr.length == 1) = true := by
    simp [List.all_eq_true]
  simp only [mic_callback, Bool.false_eq_true, if_false, ite_false, hall, if_true,
    List.map_map]
  simp [Function.comp_def]

/-- Claim C9: in every processed audio block each output sample equals the
corresponding input sample multiplied by the gain scalar current at that
block (so a block processed at gain `2` is exactly the gain-`1` output
doubled), a single input channel is up-mixed to two output channels by
duplicating each sample, and a processing error zero-fills the two-channel
output block instead of propagating. -/
theorem mic_callback_gain_upmix_silence (gain : ℚ) (xs : List ℚ)
    (ind : List (List ℚ)) :
    mic_callback gain false (xs.map (fun x => [x])) =
      xs.map (fun x => [x * gain, x * gain]) ∧
    mic_callback 2 false (xs.map (fun x => [x])) =
      (mic_callback 1 false (xs.map (fun x => [x]))).map
        (fun fr => fr.map (fun y => 2 * y)) ∧
    mic_callback gain true ind = ind.map (fun _ => [0, 0]) := by
  refine ⟨mic_callback_mono gain xs, ?_, by simp [mic_callback]⟩
  rw [mic_callback_mono, mic_callback_mono]
  simp [List.map_map, Function.comp_def, mul_comm]

lemma captureSessions_no_eligible (excl : List Nat) (ownPid : Nat) :
    ∀ (snap : List Session) (saved : List (Nat × ℚ)),
      (∀ s ∈ snap, sessEligible excl ownPid s = false) →
      captureSessions excl ownPid saved snap = (saved, []) := by
  intro snap
  induction snap with
  | nil => intro saved _; rfl
  | cons s rest ih =>
      intro saved h
      have hs : sessEligible excl ownPid s = false := h s (List.mem_cons_self s rest)
      simp [captureSessions, hs,
        ih saved (fun t ht => h t (List.mem_cons_of_mem s ht))]

/-- Claim C10: `restore_all_sessions` on an empty tracked-session map
returns success without touching the `_duck_active` flag; hence after a duck
call that found no duckable session (which marks the episode active with an
empty map), the episode stays marked active even across a restore, and any
subsequent duck call sees the episode as active and does not reset the
baseline map. -/
theorem restore_empty_keeps_episode_active (st : DuckState)
    (volMap : List (Nat × ℚ)) (excl : List Nat) (ownPid : Nat)
    (snap snap2 : List Session) (k : Nat) (b : ℚ) :
    (st.savedSessions = [] →
      restore_all_sessions true st volMap = ⟨st, true, []⟩) ∧
    ((∀ s ∈ snap2, sessEligible excl ownPid s = false) →
      (duck_all_sessions true excl ownPid ⟨[], false⟩ snap2).1 = ⟨[], true⟩ ∧
      (restore_all_sessions true
          (duck_all_sessions true excl ownPid ⟨[], false⟩ snap2).1
          volMap).state.duckActive = true) ∧
    (st.duckActive = true →
      ((duck_all_sessions true excl ownPid st snap).1).duckActive = true ∧
      (lookupSaved k st.savedSessions = some b →
        lookupSaved k
          ((duck_all_sessions true excl ownPid st snap).1).savedSessions = some b)) := by
  refine ⟨?_, ?_, ?_⟩
  · intro he
    simp [restore_all_sessions, he]
  · intro hnone
    have hduck : (duck_all_sessions true excl ownPid ⟨[], false⟩ snap2).1 = ⟨[], true⟩ := by
      simp [duck_all_sessions, captureSessions_no_eligible excl ownPid snap2 [] hnone]
    refine ⟨hduck, ?_⟩
    rw [hduck]
    simp [restore_all_sessions]
  · intro hact
    refine ⟨by simp [duck_all_sessions], ?_⟩
    intro h
    exact (duck_preserves excl ownPid st snap k b hact h).1

theorem restore_empty_keeps_episode_active_witness :
    restore_all_sessions true ⟨[], true⟩ [] = ⟨⟨[], true⟩, true, []⟩ ∧
    (duck_all_sessions true [] 0 ⟨[], false⟩ []).1 = ⟨[], true⟩ ∧
    (restore_all_sessions true (duck_all_sessions true [] 0 ⟨[], false⟩ []).1
        []).state.duckActive = true := by
  have h2 := (restore_empty_keeps_episode_active ⟨[], true⟩ [] [] 0 [] [] 0 0).2.1
    (by intro s hs; cases hs)
  exact ⟨(restore_empty_keeps_episode_active ⟨[], true⟩ [] [] 0 [] [] 0 0).1 rfl,
    h2.1, h2.2⟩
